import Mathlib

/-!
Shallow embedding of the EcoRecommendPro recommendation core.

The authoritative scoring pipeline lives in
`server/recommendation_service.py` (class `RecommendationEngine`); a second,
divergent variant of the same logic lives in `server/recommendations.py`.
Both are embedded here: the service variant under the plain names, the
storage-backed variant under a `V2` suffix.  Python dictionaries with
optional keys become structures with `Option` fields, `dict.get(k, d)`
becomes `Option.getD`, mandatory subscription `d[k]` in the V2 variant
becomes an `Except`-valued access (a KeyError), and Python's stable
`list.sort(..., reverse=True)` becomes `List.insertionSort` with the
"key of the right argument is lexicographically at most the key of the
left argument" relation, which is the unique stable descending order.
Scores are rational numbers.
-/

/-- Lower-casing of a string, character by character (Python `str.lower`
on the ASCII range used by the scoring keyword tables). -/
def lowerS (s : String) : String := ⟨s.data.map Char.toLower⟩

/-- Predicate `chStarts n h` is true when the character list `n` is an initial
segment of `h`. -/
def chStarts : List Char → List Char → Bool
  | [], _ => true
  | _ :: _, [] => false
  | a :: as, b :: bs => a == b && chStarts as bs

/-- Predicate `chHas n h` is true when the character list `n` occurs contiguously
inside `h`. -/
def chHas (needle : List Char) : List Char → Bool
  | [] => chStarts needle []
  | b :: bs => chStarts needle (b :: bs) || chHas needle bs

/-- Python's substring containment test `needle in hay`. -/
def strHas (hay needle : String) : Bool := chHas needle.data hay.data

/-- A product record.  `id` is mandatory (`product['id']` is subscripted
directly by the ranking code); the remaining fields are optional dict
keys read through `.get` with defaults. -/
structure Product where
  id : Int
  category : Option String
  title : Option String
  text : Option String
  price : Option ℚ
  ecoScore : Option ℚ
deriving DecidableEq

/-- A cart or wishlist entry: wraps an optional nested `'product'` key. -/
structure ActivityItem where
  product : Option Product
deriving DecidableEq

/-- The preference profile built by `_extract_user_preferences`:
`preferred_categories` is a Python dict, embedded as an association list
with unique keys (first match wins on lookup); `keywords` is a plain list
and may contain duplicates. -/
structure Preferences where
  preferredCategories : List (String × Nat)
  priceRangeMin : ℚ
  priceRangeMax : ℚ
  ecoScoreThreshold : ℚ
  keywords : List String
deriving DecidableEq

/-- A candidate decorated with its `recommendation_score` (the code copies
all product fields and adds the score; we keep the product whole). -/
structure ScoredProduct where
  product : Product
  recommendation_score : ℚ
deriving DecidableEq

/-- Python dict lookup `d.get(c)` on the association list. -/
def lookupCat (m : List (String × Nat)) (c : String) : Option Nat :=
  match m with
  | [] => none
  | (k, v) :: rest => if k = c then some v else lookupCat rest c

/-- Python `d[c] = d.get(c, 0) + 1`: bump in place, or append a fresh key. -/
def bumpCat (m : List (String × Nat)) (c : String) : List (String × Nat) :=
  match m with
  | [] => [(c, 1)]
  | (k, v) :: rest => if k = c then (k, v + 1) :: rest else (k, v) :: bumpCat rest c

/-- Embedding of `recommendation_service.py` `_calculate_demographic_score`: eco-score
base times 0.6, age-band category/title bonus 15 and text bonus 5,
gender category/title bonus 8, clamped below at 0. -/
def calculateDemographicScore (product : Product) (userAge : Int) (userGender : String) : ℚ :=
  let base : ℚ := 0 + (product.ecoScore.getD 0) * 0.6
  let category := lowerS (product.category.getD "")
  let title := lowerS (product.title.getD "")
  let text := lowerS (product.text.getD "")
  let ageBonus : ℚ :=
    if userAge < 25 then
      (if ["electronics", "fashion", "sports", "tech", "gadget"].any
          (fun k => strHas category k || strHas title k) then (15 : ℚ) else 0) +
      (if ["portable", "travel", "compact", "modern"].any
          (fun k => strHas text k) then (5 : ℚ) else 0)
    else if userAge < 40 then
      (if ["home", "kitchen", "outdoor", "garden"].any
          (fun k => strHas category k) then (15 : ℚ) else 0) +
      (if ["family", "home", "kitchen", "cooking"].any
          (fun k => strHas text k) then (5 : ℚ) else 0)
    else
      (if ["health", "improvement", "garden", "wellness"].any
          (fun k => strHas category k) then (15 : ℚ) else 0) +
      (if ["comfort", "health", "wellness", "garden"].any
          (fun k => strHas text k) then (5 : ℚ) else 0)
  let genderBonus : ℚ :=
    if userGender == "female" then
      if ["beauty", "fashion", "home", "personal care"].any
          (fun k => strHas category k || strHas title k) then (8 : ℚ) else 0
    else if userGender == "male" then
      if ["tools", "automotive", "sports", "tech"].any
          (fun k => strHas category k || strHas title k) then (8 : ℚ) else 0
    else 0
  max 0 (base + ageBonus + genderBonus)

/-- Embedding of `recommendation_service.py` `_calculate_personalized_score`. -/
def calculatePersonalizedScore (product : Product) (preferences : Preferences)
    (userAge : Int) (userGender : String) : ℚ :=
  let score : ℚ := 0
  let score := score + calculateDemographicScore product userAge userGender * 0.4
  let category := product.category.getD ""
  let score :=
    match lookupCat preferences.preferredCategories category with
    | some n => score + (n : ℚ) * 8
    | none => score
  let price := product.price.getD 0
  let score :=
    if preferences.priceRangeMin ≤ price ∧ price ≤ preferences.priceRangeMax then
      score + 20 else score
  let ecoScore := product.ecoScore.getD 0
  let score := if preferences.ecoScoreThreshold ≤ ecoScore then score + 15 else score
  let productText := lowerS (product.text.getD "")
  let keywordMatches := (preferences.keywords.filter (fun k => strHas productText k)).length
  let score := score + (keywordMatches : ℚ) * 1.5
  max 0 score

/-- Python truthiness of an optional numeric dict value: `p.get(k)` is
truthy exactly when the key is present with a nonzero value. -/
def truthyQ (o : Option ℚ) : Bool :=
  match o with
  | some q => decide (q ≠ 0)
  | none => false

/-- Python `text.split()`: split on whitespace, dropping empty pieces. -/
def splitWs (s : String) : List String :=
  (s.split (fun c => c.isWhitespace)).filter (fun w => w ≠ "")

/-- Value `min` of a nonempty Python list (0 on the empty list, never hit). -/
def listMin (l : List ℚ) : ℚ :=
  match l with
  | [] => 0
  | x :: xs => xs.foldl min x

/-- Value `max` of a nonempty Python list (0 on the empty list, never hit). -/
def listMax (l : List ℚ) : ℚ :=
  match l with
  | [] => 0
  | x :: xs => xs.foldl max x

/-- The profile `_extract_user_preferences` initializes and returns
unchanged when there is no activity. -/
def defaultPreferences : Preferences := ⟨[], 0, 1000, 0, []⟩

/-- The flattened `all_products` pool of `_extract_user_preferences`:
cart products, then wishlist products, then viewed products. -/
def activityPool (cartItems wishlistItems : List ActivityItem)
    (viewedProducts : List Product) : List Product :=
  cartItems.filterMap (fun item => item.product) ++
    wishlistItems.filterMap (fun item => item.product) ++ viewedProducts

/-- Embedding of `recommendation_service.py` `_extract_user_preferences`: flatten cart
(items with a `'product'` key), wishlist, then viewed products; count
categories; take the price range over truthy prices; threshold = mean of
truthy eco-scores × 0.8; keywords = first 10 lower-cased whitespace
tokens of each truthy text. -/
def extractUserPreferences (cartItems wishlistItems : List ActivityItem)
    (viewedProducts : List Product) : Preferences :=
  let allProducts := cartItems.filterMap (fun item => item.product) ++
    wishlistItems.filterMap (fun item => item.product) ++ viewedProducts
  if allProducts.isEmpty then defaultPreferences
  else
    let cats := allProducts.foldl (fun m p => bumpCat m (p.category.getD "")) []
    let prices := (allProducts.filter (fun p => truthyQ p.price)).map
      (fun p => p.price.getD 0)
    let priceMin := if prices.isEmpty then (0 : ℚ) else listMin prices * 0.8
    let priceMax := if prices.isEmpty then (1000 : ℚ) else listMax prices * 1.2
    let ecoScores := (allProducts.filter (fun p => truthyQ p.ecoScore)).map
      (fun p => p.ecoScore.getD 0)
    let threshold :=
      if ecoScores.isEmpty then (0 : ℚ)
      else ecoScores.sum / (ecoScores.length : ℚ) * 0.8
    let keywords := allProducts.foldl (fun acc p =>
      let text := p.text.getD ""
      if text ≠ "" then acc ++ (splitWs (lowerS text)).take 10 else acc) []
    ⟨cats, priceMin, priceMax, threshold, keywords⟩

/-- Embedding of `recommendation_service.py` `_is_product_in_activity`:
`item.get('product', {}).get('id') == product_id` over cart then
wishlist (an item without a product never matches an integer id). -/
def isProductInActivity (productId : Int) (cartItems wishlistItems : List ActivityItem) : Bool :=
  cartItems.any (fun item =>
    match item.product with
    | some p => p.id == productId
    | none => false) ||
  wishlistItems.any (fun item =>
    match item.product with
    | some p => p.id == productId
    | none => false)

/-- The `user_data` dict after the `.get` defaults of
`get_personalized_recommendations` have been applied. -/
structure UserData where
  age : Int
  gender : String
  cartItems : List ActivityItem
  wishlistItems : List ActivityItem
  viewedProducts : List Product

/-- Descending order on `(recommendation_score, eco-score)` keys:
`a` may precede `b` exactly when `b`'s key is no greater than `a`'s.
Sorting a list stably by this relation is Python's
`sort(key=lambda x: (x['recommendation_score'], float(x.get('ecoScore', 0))), reverse=True)`. -/
def coldKeyLe (a b : ScoredProduct) : Prop :=
  b.recommendation_score < a.recommendation_score ∨
    (b.recommendation_score = a.recommendation_score ∧
      b.product.ecoScore.getD 0 ≤ a.product.ecoScore.getD 0)

instance : DecidableRel coldKeyLe := fun a b => by
  unfold coldKeyLe; infer_instance

/-- Descending order on the bare `recommendation_score` key:
Python's `sort(key=lambda x: x['recommendation_score'], reverse=True)`. -/
def persKeyLe (a b : ScoredProduct) : Prop :=
  b.recommendation_score ≤ a.recommendation_score

instance : DecidableRel persKeyLe := fun a b => by
  unfold persKeyLe; infer_instance

/-- Embedding of `recommendation_service.py` `get_cold_start_recommendations`: score
each candidate demographically, keep strictly positive scores, sort
descending by `(score, eco-score)` (stable), truncate to `limit`. -/
def getColdStartRecommendations (products : List Product) (userAge : Int)
    (userGender : String) (limit : Nat) : List ScoredProduct :=
  let scored := products.filterMap (fun product =>
    let score := calculateDemographicScore product userAge userGender
    if 0 < score then some ⟨product, score⟩ else none)
  (List.insertionSort coldKeyLe scored).take limit

/-- Embedding of `recommendation_service.py` `get_personalized_recommendations`:
extract preferences, skip candidates already in cart or wishlist, keep
strictly positive personalized scores, sort descending by score
(stable), truncate to `limit`. -/
def getPersonalizedRecommendations (products : List Product)
    (userData : UserData) (limit : Nat) : List ScoredProduct :=
  let preferences := extractUserPreferences userData.cartItems
    userData.wishlistItems userData.viewedProducts
  let scored := products.filterMap (fun product =>
    if isProductInActivity product.id userData.cartItems userData.wishlistItems then
      none
    else
      let score := calculatePersonalizedScore product preferences
        userData.age userData.gender
      if 0 < score then some ⟨product, score⟩ else none)
  (List.insertionSort persKeyLe scored).take limit

/-- Python mandatory subscription `d[k]`: a missing key raises KeyError. -/
def keyErr {α : Type} (msg : String) : Option α → Except String α
  | some a => Except.ok a
  | none => Except.error msg

/-- Embedding of `recommendations.py` `_calculate_demographic_score` (the storage-backed
variant): weights 10/5, category only, and a mandatory
`product['category']` access that raises when the key is absent. -/
def calculateDemographicScoreV2 (product : Product) (userAge : Int)
    (userGender : String) : Except String ℚ := do
  let score : ℚ := 0 + (product.ecoScore.getD 0) * 0.6
  let category ← keyErr "KeyError: category" product.category
  let cat := lowerS category
  let score :=
    if userAge < 25 then
      if ["electronics", "fashion", "sports"].any (fun k => strHas cat k) then
        score + 10 else score
    else if userAge < 40 then
      if ["home", "kitchen", "outdoor", "garden"].any (fun k => strHas cat k) then
        score + 10 else score
    else
      if ["health", "improvement", "garden"].any (fun k => strHas cat k) then
        score + 10 else score
  let score :=
    if userGender == "female" then
      if ["beauty", "fashion", "home"].any (fun k => strHas cat k) then
        score + 5 else score
    else if userGender == "male" then
      if ["tools", "automotive", "sports"].any (fun k => strHas cat k) then
        score + 5 else score
    else score
  return max 0 score

/-- Embedding of `recommendations.py` `_extract_user_preferences`: every access is a
mandatory subscription (`item['product']`, `product['category']`,
`p['price']`, `p['eco_score']`, `product['text']`), so any missing field
raises; no per-product keyword truncation. -/
def extractUserPreferencesV2 (cartItems wishlistItems : List ActivityItem)
    (viewedProducts : List Product) : Except String Preferences := do
  let cartProducts ← cartItems.mapM (fun item => keyErr "KeyError: product" item.product)
  let wishProducts ← wishlistItems.mapM (fun item => keyErr "KeyError: product" item.product)
  let allProducts := cartProducts ++ wishProducts ++ viewedProducts
  if allProducts.isEmpty then
    return defaultPreferences
  else
    let cats ← allProducts.foldlM (fun m p => do
      let c ← keyErr "KeyError: category" p.category
      return bumpCat m c) []
    let prices ← allProducts.mapM (fun p => keyErr "KeyError: price" p.price)
    let priceMin := if prices.isEmpty then (0 : ℚ) else listMin prices * 0.8
    let priceMax := if prices.isEmpty then (1000 : ℚ) else listMax prices * 1.2
    let ecoScores ← allProducts.mapM (fun p => keyErr "KeyError: eco_score" p.ecoScore)
    let threshold :=
      if ecoScores.isEmpty then (0 : ℚ)
      else ecoScores.sum / (ecoScores.length : ℚ) * 0.8
    let keywords ← allProducts.foldlM (fun acc p => do
      let t ← keyErr "KeyError: text" p.text
      return acc ++ splitWs (lowerS t)) ([] : List String)
    return ⟨cats, priceMin, priceMax, threshold, keywords⟩

/-- The worked example product of the spec: category "electronics",
title "Solar Charger", text "portable travel charger", price 40,
eco-score 50. -/
def prodC2 : Product :=
  ⟨0, some "electronics", some "Solar Charger", some "portable travel charger", some 40, some 50⟩

/-- A copy of a product in which every optional field has been replaced
by its documented default (category "", title "", text "", price 0,
eco_score 0). -/
def withDefaults (p : Product) : Product :=
  ⟨p.id, some (p.category.getD ""), some (p.title.getD ""), some (p.text.getD ""),
    some (p.price.getD 0), some (p.ecoScore.getD 0)⟩

/-- A product whose `'category'` key is absent (all other fields present). -/
def prodNoCat : Product := ⟨3, none, some "T", some "x", some 1, some 1⟩

/-- An activity product whose price is present and equal to 0. -/
def prodP0 : Product := ⟨4, none, none, none, some 0, none⟩

/-- An activity product priced 100. -/
def prodP100 : Product := ⟨5, none, none, none, some 100, none⟩

/-- The prices present in a pool of products, zero or not (what the claim
asserts the price range is computed from). -/
def presentPrices (pool : List Product) : List ℚ :=
  (pool.filter (fun p => p.price.isSome)).map (fun p => p.price.getD 0)

/-- The truthy prices of a pool: present and nonzero (what the code
actually computes the price range from). -/
def truthyPrices (pool : List Product) : List ℚ :=
  (pool.filter (fun p => truthyQ p.price)).map (fun p => p.price.getD 0)

/-- Claim C2: on the spec's worked example (electronics "Solar Charger",
"portable travel charger", price 40, eco-score 50) with age 20 and
gender "male", the demographic score is exactly
50×0.6 + 15 (electronics category/title match) + 5 (portable/travel
text match) + 0 (no male keyword in category or title) = 50. -/
theorem demographic_score_solar_charger_example :
    calculateDemographicScore prodC2 20 "male" = 50 := by
  simp only [calculateDemographicScore, prodC2, Option.getD_some]
  norm_num +decide

/-- Claim C8: demographic and personalized scores are clamped below at 0 and
never negative, for every product, age, gender and preference profile. -/
theorem scores_nonneg (p : Product) (userAge : Int) (userGender : String)
    (preferences : Preferences) :
    0 ≤ calculateDemographicScore p userAge userGender ∧
      0 ≤ calculatePersonalizedScore p preferences userAge userGender := by
  constructor
  · simp only [calculateDemographicScore]
    exact le_max_left 0 _
  · simp only [calculatePersonalizedScore]
    exact le_max_left 0 _

/-- Claim C5: preference extraction on three empty activity sequences returns
exactly the default profile — price range [0, 1000], eco-score threshold
0, empty category affinity, empty keyword list — in both variants. -/
theorem extract_preferences_empty_activity_default :
    extractUserPreferences [] [] [] = defaultPreferences ∧
      extractUserPreferencesV2 [] [] [] = Except.ok defaultPreferences ∧
      defaultPreferences = ⟨[], 0, 1000, 0, []⟩ := by
  refine ⟨rfl, rfl, rfl⟩

/-- Claim C4 counterexample: the `recommendations.py` variant of demographic
scoring subscripts `product['category']` unconditionally, so a product
record without a category raises a KeyError instead of degrading to the
default "". -/
theorem v2_demographic_raises_on_missing_category :
    calculateDemographicScoreV2 prodNoCat 30 "male" =
      Except.error "KeyError: category" := rfl

/-- Claim C4 amended: in the `recommendation_service.py` variant every missing
optional field scores exactly as its documented default (category "",
title "", text "", price 0, eco_score 0), and preference extraction
skips a cart item that lacks a nested product instead of failing. -/
theorem missing_fields_degrade_to_defaults_service_variant
    (p : Product) (userAge : Int) (userGender : String)
    (preferences : Preferences) (cartItems wishlistItems : List ActivityItem)
    (viewedProducts : List Product) :
    calculateDemographicScore p userAge userGender =
        calculateDemographicScore (withDefaults p) userAge userGender ∧
      calculatePersonalizedScore p preferences userAge userGender =
        calculatePersonalizedScore (withDefaults p) preferences userAge userGender ∧
      extractUserPreferences (⟨none⟩ :: cartItems) wishlistItems viewedProducts =
        extractUserPreferences cartItems wishlistItems viewedProducts := by
  refine ⟨?_, ?_, ?_⟩
  · simp only [calculateDemographicScore, withDefaults, Option.getD_some]
  · simp only [calculatePersonalizedScore, calculateDemographicScore, withDefaults,
      Option.getD_some]
  · simp only [extractUserPreferences, List.filterMap_cons]

/-- Claim C7 counterexample: with a pool holding a present price of 0 and a
price of 100, the code computes the lower bound from the truthy prices
only (min 100 × 0.8 = 80), not from all present prices
(min 0 × 0.8 = 0): a present zero price is excluded. -/
theorem price_range_excludes_present_zero_price :
    (extractUserPreferences [] [] [prodP0, prodP100]).priceRangeMin ≠
      listMin (presentPrices [prodP0, prodP100]) * 0.8 := by
  have h1 : (extractUserPreferences [] [] [prodP0, prodP100]).priceRangeMin = 80 := by
    simp only [extractUserPreferences, prodP0, prodP100]
    norm_num +decide [truthyQ, listMin]
  have h2 : listMin (presentPrices [prodP0, prodP100]) * 0.8 = 0 := by
    simp only [presentPrices, prodP0, prodP100]
    norm_num +decide [listMin]
  rw [h1, h2]
  norm_num

/-- Claim C7 amended: for every activity pool, the price-range bounds are
[min × 0.8, max × 1.2] over exactly the truthy prices — present and
nonzero — of the pool (a missing price and a present price of 0 are both
excluded), with the defaults [0, 1000] kept when no truthy price
exists. -/
theorem price_range_over_truthy_prices
    (cartItems wishlistItems : List ActivityItem) (viewedProducts : List Product) :
    (extractUserPreferences cartItems wishlistItems viewedProducts).priceRangeMin =
        (if (truthyPrices (activityPool cartItems wishlistItems viewedProducts)).isEmpty
          then 0
          else listMin (truthyPrices (activityPool cartItems wishlistItems viewedProducts)) * 0.8) ∧
      (extractUserPreferences cartItems wishlistItems viewedProducts).priceRangeMax =
        (if (truthyPrices (activityPool cartItems wishlistItems viewedProducts)).isEmpty
          then 1000
          else listMax (truthyPrices (activityPool cartItems wishlistItems viewedProducts)) * 1.2) := by
  set pool := activityPool cartItems wishlistItems viewedProducts with hpool
  rw [activityPool] at hpool
  by_cases h : pool.isEmpty
  · have hnil : pool = [] := List.isEmpty_iff.mp h
    simp only [extractUserPreferences, truthyPrices]
    rw [← hpool, hnil]
    simp [defaultPreferences]
  · simp only [extractUserPreferences, truthyPrices]
    rw [← hpool]
    simp [h]

/-- The personalized-score contract transcribed from the spec's words:
0.4 × demographic score, plus 8 × the profile's affinity count for the
product's category when that category is a key of the profile (0
otherwise), plus 20 when the price lies inside the profile's price range
inclusively, plus 15 when the eco-score reaches the profile's threshold,
plus 1.5 × the number of profile keywords occurring in the lower-cased
product text, clamped below at 0. -/
def specPersonalizedScore (product : Product) (profile : Preferences)
    (userAge : Int) (userGender : String) : ℚ :=
  max 0 (0.4 * calculateDemographicScore product userAge userGender +
    (match lookupCat profile.preferredCategories (product.category.getD "") with
     | some n => 8 * (n : ℚ)
     | none => 0) +
    (if profile.priceRangeMin ≤ product.price.getD 0 ∧
        product.price.getD 0 ≤ profile.priceRangeMax then 20 else 0) +
    (if profile.ecoScoreThreshold ≤ product.ecoScore.getD 0 then 15 else 0) +
    1.5 * ((profile.keywords.filter
      (fun k => strHas (lowerS (product.text.getD "")) k)).length : ℚ))

/-- Claim C1: for every product, profile, age and gender, the code's
personalized score equals the spec's closed-form formula. -/
theorem personalized_score_matches_spec_formula
    (product : Product) (profile : Preferences) (userAge : Int) (userGender : String) :
    calculatePersonalizedScore product profile userAge userGender =
      specPersonalizedScore product profile userAge userGender := by
  simp only [calculatePersonalizedScore, specPersonalizedScore]
  cases h : lookupCat profile.preferredCategories (product.category.getD "") with
  | none => split_ifs <;> ring_nf
  | some n => split_ifs <;> ring_nf

/-- A "home" product with eco-score 10, agreeing with `prodEco20` on
category, title and text. -/
def prodEco10 : Product := ⟨6, some "home", none, none, none, some 10⟩

/-- The same product record with eco-score 20. -/
def prodEco20 : Product := ⟨6, some "home", none, none, none, some 20⟩

/-- Claim C10: demographic score is monotone non-decreasing in the eco-score
when two products agree on category, title and text. -/
theorem demographic_score_monotone_in_eco
    (p1 p2 : Product) (userAge : Int) (userGender : String)
    (hcat : p1.category = p2.category) (htitle : p1.title = p2.title)
    (htext : p1.text = p2.text)
    (heco : p1.ecoScore.getD 0 ≤ p2.ecoScore.getD 0) :
    calculateDemographicScore p1 userAge userGender ≤
      calculateDemographicScore p2 userAge userGender := by
  have he : (0 : ℚ) + p1.ecoScore.getD 0 * 0.6 ≤ 0 + p2.ecoScore.getD 0 * 0.6 := by
    have h06 : (0 : ℚ) ≤ 0.6 := by norm_num
    simpa using mul_le_mul_of_nonneg_right heco h06
  simp only [calculateDemographicScore, hcat, htitle, htext]
  exact max_le_max le_rfl (add_le_add_right (add_le_add_right he _) _)

/-- Witness for C10 at eco-scores 10 ≤ 20 on matching "home" products. -/
theorem demographic_score_monotone_in_eco_witness :
    prodEco10.ecoScore.getD 0 ≤ prodEco20.ecoScore.getD 0 ∧
      calculateDemographicScore prodEco10 30 "male" ≤
        calculateDemographicScore prodEco20 30 "male" :=
  ⟨by norm_num [prodEco10, prodEco20],
    demographic_score_monotone_in_eco prodEco10 prodEco20 30 "male" rfl rfl rfl
      (by norm_num [prodEco10, prodEco20])⟩

instance : IsTotal ScoredProduct coldKeyLe := by
  constructor
  intro a b
  unfold coldKeyLe
  rcases lt_trichotomy b.recommendation_score a.recommendation_score with h | h | h
  · exact Or.inl (Or.inl h)
  · rcases le_total (b.product.ecoScore.getD 0) (a.product.ecoScore.getD 0) with he | he
    · exact Or.inl (Or.inr ⟨h, he⟩)
    · exact Or.inr (Or.inr ⟨h.symm, he⟩)
  · exact Or.inr (Or.inl h)

instance : IsTrans ScoredProduct coldKeyLe := by
  constructor
  intro a b c hab hbc
  unfold coldKeyLe at *
  rcases hab with h1 | ⟨h1, e1⟩
  · rcases hbc with h2 | ⟨h2, e2⟩
    · exact Or.inl (h2.trans h1)
    · exact Or.inl (h2 ▸ h1)
  · rcases hbc with h2 | ⟨h2, e2⟩
    · exact Or.inl (h1 ▸ h2)
    · exact Or.inr ⟨h2.trans h1, e2.trans e1⟩

/-- Claim C6: in the cold-start output, whenever an entry precedes another with
the same recommendation score, its (defaulted) eco-score is at least the
later one's: eco-score is the descending secondary sort key. -/
theorem cold_start_tie_break_by_eco_score
    (products : List Product) (userAge : Int) (userGender : String) (limit : Nat) :
    List.Pairwise
      (fun x y => x.recommendation_score = y.recommendation_score →
        y.product.ecoScore.getD 0 ≤ x.product.ecoScore.getD 0)
      (getColdStartRecommendations products userAge userGender limit) := by
  unfold getColdStartRecommendations
  apply List.Pairwise.sublist (List.take_sublist _ _)
  apply List.Pairwise.imp ?_ (List.sorted_insertionSort coldKeyLe _)
  intro x y hxy hscore
  rcases hxy with h | ⟨_, he⟩
  · exact absurd (hscore ▸ h) (lt_irrefl _)
  · exact he

/-- Keeping the candidates whose score is strictly positive yields
exactly as many entries as there are such candidates. -/
lemma length_filterMap_scored (f : Product → ℚ) (l : List Product) :
    (l.filterMap (fun p => if 0 < f p then some (⟨p, f p⟩ : ScoredProduct) else none)).length =
      l.countP (fun p => decide (0 < f p)) := by
  induction l with
  | nil => rfl
  | cons p ps ih =>
    by_cases h : 0 < f p <;> simp [List.filterMap_cons, List.countP_cons, h, ih]

/-- Claim C9: the cold-start output never exceeds the limit, nor the number of
candidates whose demographic score is strictly positive. -/
theorem cold_start_output_length_bounds
    (products : List Product) (userAge : Int) (userGender : String) (limit : Nat) :
    (getColdStartRecommendations products userAge userGender limit).length ≤ limit ∧
      (getColdStartRecommendations products userAge userGender limit).length ≤
        products.countP (fun p => decide (0 < calculateDemographicScore p userAge userGender)) := by
  constructor
  · exact (List.length_take _ _).le.trans (min_le_left _ _)
  · unfold getColdStartRecommendations
    calc (List.take limit _).length
        ≤ _ := (List.length_take _ _).le.trans (min_le_right _ _)
      _ = _ := (List.perm_insertionSort coldKeyLe _).length_eq
      _ = _ := length_filterMap_scored
          (fun p => calculateDemographicScore p userAge userGender) products

/-- Claim C3: a candidate whose identifier equals the identifier of a product
wrapped in some cart or wishlist item never appears in the personalized
ranking output. -/
theorem personalized_ranking_excludes_activity_products
    (products : List Product) (userData : UserData) (limit : Nat)
    (sp : ScoredProduct)
    (hsp : sp ∈ getPersonalizedRecommendations products userData limit)
    (item : ActivityItem)
    (hitem : item ∈ userData.cartItems ∨ item ∈ userData.wishlistItems)
    (q : Product) (hq : item.product = some q) :
    q.id ≠ sp.product.id := by
  simp only [getPersonalizedRecommendations] at hsp
  have h1 := List.mem_of_mem_take hsp
  have h2 := (List.perm_insertionSort persKeyLe _).subset h1
  rw [List.mem_filterMap] at h2
  obtain ⟨p, hp_mem, hp_eq⟩ := h2
  by_cases hact : isProductInActivity p.id userData.cartItems userData.wishlistItems
  · simp [hact] at hp_eq
  · simp only [hact, if_false, Bool.false_eq_true] at hp_eq
    by_cases hpos : 0 < calculatePersonalizedScore p
        (extractUserPreferences userData.cartItems userData.wishlistItems userData.viewedProducts)
        userData.age userData.gender
    · rw [if_pos hpos] at hp_eq
      have hprod : sp.product = p := by
        cases hp_eq
        rfl
      intro hid
      apply hact
      unfold isProductInActivity
      rw [Bool.or_eq_true]
      rcases hitem with hc | hw
      · left
        rw [List.any_eq_true]
        refine ⟨item, hc, ?_⟩
        rw [hq]
        simp only [beq_iff_eq]
        rw [hid, hprod]
      · right
        rw [List.any_eq_true]
        refine ⟨item, hw, ?_⟩
        rw [hq]
        simp only [beq_iff_eq]
        rw [hid, hprod]
    · rw [if_neg hpos] at hp_eq
      exact absurd hp_eq (by simp)

/-- The candidate of the C3 witness run. -/
def prodA3 : Product := ⟨1, some "home", none, none, some 10, none⟩

/-- The product sitting in the witness cart. -/
def prodB3 : Product := ⟨2, some "home", none, none, some 10, none⟩

/-- The cart item wrapping `prodB3`. -/
def itemB3 : ActivityItem := ⟨some prodB3⟩

/-- Witness user data: age 30, gender "x", cart `[itemB3]`. -/
def userD3 : UserData := ⟨30, "x", [itemB3], [], []⟩

/-- The profile extracted from the witness cart: one "home" purchase at
price 10 gives range [8, 12], threshold 0 and no keywords. -/
def prefs3 : Preferences := ⟨[("home", 1)], 8, 12, 0, []⟩

/-- Concrete evaluation of the personalized pipeline on the witness
input: the single candidate scores 15×0.4 + 8 + 20 + 15 = 49. -/
lemma personalized_pipeline_eval3 :
    getPersonalizedRecommendations [prodA3] userD3 20 = [⟨prodA3, 49⟩] := by
  have hpref : extractUserPreferences [itemB3] [] [] = prefs3 := by
    simp only [extractUserPreferences, itemB3, prodB3, prefs3, defaultPreferences, bumpCat,
      truthyQ, listMin, listMax, splitWs, lowerS, List.filterMap_cons, List.filterMap_nil,
      List.filter_cons, List.filter_nil, List.map_cons, List.map_nil, List.foldl,
      List.append_nil, List.nil_append]
    norm_num +decide
  have hact : isProductInActivity prodA3.id [itemB3] [] = false := by decide
  have hscore : calculatePersonalizedScore prodA3 prefs3 30 "x" = 49 := by
    simp only [calculatePersonalizedScore, calculateDemographicScore, prodA3, prefs3,
      lookupCat, Option.getD_some]
    norm_num +decide
  simp only [getPersonalizedRecommendations, userD3]
  rw [hpref]
  simp only [List.filterMap_cons, List.filterMap_nil, hact, Bool.false_eq_true, if_false,
    hscore]
  norm_num [List.insertionSort, List.orderedInsert, List.take]

/-- Witness for C3: on the concrete run, the candidate `prodA3` is in the
output, `itemB3` is in the cart wrapping `prodB3`, and the cart
product's id differs from the output entry's id. -/
theorem personalized_ranking_excludes_activity_products_witness :
    (⟨prodA3, 49⟩ : ScoredProduct) ∈ getPersonalizedRecommendations [prodA3] userD3 20 ∧
      (itemB3 ∈ userD3.cartItems ∨ itemB3 ∈ userD3.wishlistItems) ∧
      itemB3.product = some prodB3 ∧
      prodB3.id ≠ (⟨prodA3, 49⟩ : ScoredProduct).product.id := by
  have hmem : (⟨prodA3, 49⟩ : ScoredProduct) ∈
      getPersonalizedRecommendations [prodA3] userD3 20 := by
    rw [personalized_pipeline_eval3]
    exact List.mem_singleton.mpr rfl
  have hin : itemB3 ∈ userD3.cartItems ∨ itemB3 ∈ userD3.wishlistItems :=
    Or.inl (by simp [userD3])
  exact ⟨hmem, hin, rfl,
    personalized_ranking_excludes_activity_products [prodA3] userD3 20 _ hmem itemB3 hin
      prodB3 rfl⟩
